import Mathlib

/-! Message logger (`src/infrastructure/whatsapp/message_logger.go`)


A shallow embedding of the structured message logger: the two content-type
classifiers `detectIncomingType` and `detectOutgoingType`, the two record
emitters `LogIncomingMessage` and `LogOutgoingMessage`, and the lazily
initialised logger `getMsgLogger`.

Go pointers that may be nil are `Option`s.  Code of other packages that the
file calls (JID rendering, time formatting, text extraction, the file system)
is not part of this file and is taken as a parameter (`Deps`).  The library
renderings of identifiers and instants are also written out
(`types.JID.ToNonAD`, `types.JID.String`, `formatRFC3339UTC`) to evaluate the
end-to-end scenarios.
-/

set_option linter.dupNamespace false

namespace MessageLogger

/-! ## The message payload (`waE2E.Message`) -/

namespace waE2E

/-- Image sub-message; this module only tests the pointer against nil. -/
structure ImageMessage where
  raw : List Nat
  deriving DecidableEq, Repr

/-- Video sub-message; this module only tests the pointer against nil. -/
structure VideoMessage where
  raw : List Nat
  deriving DecidableEq, Repr

/-- Audio sub-message; this module only tests the pointer against nil. -/
structure AudioMessage where
  raw : List Nat
  deriving DecidableEq, Repr

/-- Document sub-message; this module only tests the pointer against nil. -/
structure DocumentMessage where
  raw : List Nat
  deriving DecidableEq, Repr

/-- Sticker sub-message; this module only tests the pointer against nil. -/
structure StickerMessage where
  raw : List Nat
  deriving DecidableEq, Repr

/-- Location sub-message; this module only tests the pointer against nil. -/
structure LocationMessage where
  raw : List Nat
  deriving DecidableEq, Repr

/-- Contact sub-message; this module only tests the pointer against nil. -/
structure ContactMessage where
  raw : List Nat
  deriving DecidableEq, Repr

/-- Reaction sub-message; this module only tests the pointer against nil. -/
structure ReactionMessage where
  raw : List Nat
  deriving DecidableEq, Repr

/-- Poll-creation sub-message; this module only tests the pointer against nil. -/
structure PollCreationMessage where
  raw : List Nat
  deriving DecidableEq, Repr

/-- The message payload: a record of optional sub-messages (each a pointer that
may be nil), so one payload can carry several variants at once.  Only the
fields this module reads are kept, plus the plain-text `Conversation`. -/
structure Message where
  Conversation : Option String
  ImageMessage : Option waE2E.ImageMessage
  ContactMessage : Option waE2E.ContactMessage
  LocationMessage : Option waE2E.LocationMessage
  DocumentMessage : Option waE2E.DocumentMessage
  AudioMessage : Option waE2E.AudioMessage
  VideoMessage : Option waE2E.VideoMessage
  StickerMessage : Option waE2E.StickerMessage
  ReactionMessage : Option waE2E.ReactionMessage
  PollCreationMessage : Option waE2E.PollCreationMessage
  deriving DecidableEq, Repr

/-- The payload that carries nothing (`&waE2E.Message{}`). -/
def Message.empty : Message :=
  { Conversation := none, ImageMessage := none, ContactMessage := none,
    LocationMessage := none, DocumentMessage := none, AudioMessage := none,
    VideoMessage := none, StickerMessage := none, ReactionMessage := none,
    PollCreationMessage := none }

/-- Getter `(*Message).GetImageMessage`: the field, nil on a nil receiver. -/
def GetImageMessage (x : Option Message) : Option waE2E.ImageMessage :=
  match x with
  | some m => m.ImageMessage
  | none => none

/-- Getter `(*Message).GetVideoMessage`: the field, nil on a nil receiver. -/
def GetVideoMessage (x : Option Message) : Option waE2E.VideoMessage :=
  match x with
  | some m => m.VideoMessage
  | none => none

/-- Getter `(*Message).GetAudioMessage`: the field, nil on a nil receiver. -/
def GetAudioMessage (x : Option Message) : Option waE2E.AudioMessage :=
  match x with
  | some m => m.AudioMessage
  | none => none

/-- Getter `(*Message).GetDocumentMessage`: the field, nil on a nil receiver. -/
def GetDocumentMessage (x : Option Message) : Option waE2E.DocumentMessage :=
  match x with
  | some m => m.DocumentMessage
  | none => none

/-- Getter `(*Message).GetStickerMessage`: the field, nil on a nil receiver. -/
def GetStickerMessage (x : Option Message) : Option waE2E.StickerMessage :=
  match x with
  | some m => m.StickerMessage
  | none => none

/-- Getter `(*Message).GetLocationMessage`: the field, nil on a nil receiver. -/
def GetLocationMessage (x : Option Message) : Option waE2E.LocationMessage :=
  match x with
  | some m => m.LocationMessage
  | none => none

/-- Getter `(*Message).GetContactMessage`: the field, nil on a nil receiver. -/
def GetContactMessage (x : Option Message) : Option waE2E.ContactMessage :=
  match x with
  | some m => m.ContactMessage
  | none => none

/-- Getter `(*Message).GetReactionMessage`: the field, nil on a nil receiver. -/
def GetReactionMessage (x : Option Message) : Option waE2E.ReactionMessage :=
  match x with
  | some m => m.ReactionMessage
  | none => none

/-- Getter `(*Message).GetPollCreationMessage`: the field, nil on a nil receiver. -/
def GetPollCreationMessage (x : Option Message) : Option waE2E.PollCreationMessage :=
  match x with
  | some m => m.PollCreationMessage
  | none => none

end waE2E

/-! ## The classifiers -/

/-- Classifier of incoming payloads (`detectIncomingType`, lines 99-131). -/
def detectIncomingType (msg : Option waE2E.Message) : String :=
  if msg.isNone then "unknown"
  else if (waE2E.GetImageMessage msg).isSome then "image"
  else if (waE2E.GetVideoMessage msg).isSome then "video"
  else if (waE2E.GetAudioMessage msg).isSome then "audio"
  else if (waE2E.GetDocumentMessage msg).isSome then "document"
  else if (waE2E.GetStickerMessage msg).isSome then "sticker"
  else if (waE2E.GetLocationMessage msg).isSome then "location"
  else if (waE2E.GetContactMessage msg).isSome then "contact"
  else if (waE2E.GetReactionMessage msg).isSome then "reaction"
  else if (waE2E.GetPollCreationMessage msg).isSome then "poll"
  else "text"

/-- Classifier of outgoing payloads (`detectOutgoingType`, lines 133-165). -/
def detectOutgoingType (msg : Option waE2E.Message) (content : String) : String :=
  if msg.isNone then
    if content ≠ "" then "text" else "unknown"
  else if (waE2E.GetImageMessage msg).isSome then "image"
  else if (waE2E.GetVideoMessage msg).isSome then "video"
  else if (waE2E.GetAudioMessage msg).isSome then "audio"
  else if (waE2E.GetDocumentMessage msg).isSome then "document"
  else if (waE2E.GetStickerMessage msg).isSome then "sticker"
  else if (waE2E.GetLocationMessage msg).isSome then "location"
  else if (waE2E.GetContactMessage msg).isSome then "contact"
  else if (waE2E.GetPollCreationMessage msg).isSome then "poll"
  else "text"

/-! ## Events, identifiers and the client session -/

namespace types

/-- Participant identifier (`types.JID`): user, agent, device, integrator and
server.  The agent and the device form the device-suffix qualifier. -/
structure JID where
  User : String
  RawAgent : Nat
  Device : Nat
  Integrator : Nat
  Server : String
  deriving DecidableEq, Repr

/-- Metadata of a message (`types.MessageInfo`, with its embedded
`MessageSource`), restricted to the fields this module reads.  `Type_` is the Go field
`Type` (the type hint); `Timestamp` is an instant in seconds since the Unix
epoch. -/
structure MessageInfo where
  Chat : JID
  Sender : JID
  IsFromMe : Bool
  ID : String
  Type_ : String
  Timestamp : Int
  deriving DecidableEq, Repr

end types

namespace events

/-- Incoming-message event (`events.Message`): the metadata and the payload
pointer, which may be nil. -/
structure Message where
  Info : types.MessageInfo
  Message : Option waE2E.Message
  deriving DecidableEq, Repr

end events

namespace store

/-- Session store (`store.Device`): `ID` is the session's own identifier, nil
before login. -/
structure Device where
  ID : Option types.JID
  deriving DecidableEq, Repr

end store

namespace whatsmeow

/-- Client session (`whatsmeow.Client`): `Store` may be nil. -/
structure Client where
  Store : Option store.Device
  deriving DecidableEq, Repr

end whatsmeow

/-- Functions and values of other packages that this file calls; their code is
not part of the file, so they are parameters of the model.  The two
file-system calls get the number of earlier attempts, so that their outcome
may differ from one attempt to the next. -/
structure Deps where
  /-- Method `types.JID.ToNonAD`. -/
  ToNonAD : types.JID → types.JID
  /-- Method `types.JID.String`. -/
  JIDString : types.JID → String
  /-- Rendering `t.UTC().Format(time.RFC3339)`. -/
  FormatRFC3339 : Int → String
  /-- Text extraction `utils.BuildEventMessage(evt).Text`. -/
  BuildEventMessageText : events.Message → String
  /-- Configured path `config.LogMessagesPath`. -/
  LogMessagesPath : String
  /-- Function `filepath.Dir`. -/
  Dir : String → String
  /-- Whether `os.MkdirAll(dir, 0755)` succeeds. -/
  MkdirAll : Nat → String → Bool
  /-- Whether `os.OpenFile(path, O_APPEND|O_CREATE|O_WRONLY, 0644)` succeeds. -/
  OpenFile : Nat → String → Bool

/-! ## Log records (`logrus.Fields`) -/

/-- Value of a record field: the emitters store strings and booleans. -/
inductive Value where
  | str (s : String)
  | bool (b : Bool)
  deriving DecidableEq, Repr

/-- Record under assembly (`logrus.Fields`, a map from field name to value),
as an association list with distinct keys. -/
abbrev Fields := List (String × Value)

/-- Map read `fields[k]`. -/
def Fields.get (fields : Fields) (k : String) : Option Value :=
  match fields with
  | [] => none
  | (k1, v1) :: rest => if k1 = k then some v1 else Fields.get rest k

/-- Map write `fields[k] = v`: replaces the value of an existing key, adds the
key otherwise. -/
def Fields.set (fields : Fields) (k : String) (v : Value) : Fields :=
  match fields with
  | [] => [(k, v)]
  | (k1, v1) :: rest => if k1 = k then (k, v) :: rest else (k1, v1) :: Fields.set rest k v

/-- Keys of the map. -/
def Fields.keys (fields : Fields) : List String :=
  fields.map Prod.fst

/-! ## The logger and the process state -/

/-- Output sink of a logger. -/
inductive Sink where
  | stderr
  | stdout
  | file (path : String)
  deriving DecidableEq, Repr

/-- Formatter of a logger: the text default of `logrus.New()`, or JSON with a
timestamp layout. -/
inductive Formatter where
  | text
  | json (timestampFormat : String)
  deriving DecidableEq, Repr

/-- Layout constant `time.RFC3339`. -/
def RFC3339 : String := "2006-01-02T15:04:05Z07:00"

/-- Level constant `logrus.InfoLevel`. -/
def InfoLevel : Nat := 4

/-- Logger (`logrus.Logger`): sink, formatter and level. -/
structure Logger where
  Out : Sink
  Formatter : Formatter
  Level : Nat
  deriving DecidableEq, Repr

/-- One line written by a logger: level, message and fields. -/
structure Line where
  level : Nat
  message : String
  fields : Fields
  deriving DecidableEq, Repr

/-- Process state this file reads and writes: the two package variables
`msgLogger` and `msgLoggerOnce` (its done flag), the number of directory
creations and file opens attempted so far, the warnings sent to the default
logger, and the lines written so far with the sink of each, oldest first. -/
structure World where
  msgLogger : Option Logger
  msgLoggerOnce : Bool
  mkdirAllCalls : Nat
  openFileCalls : Nat
  warnings : List String
  written : List (Sink × Line)
  deriving DecidableEq, Repr

/-- State at process start: nothing initialised, nothing written. -/
def World.init : World :=
  { msgLogger := none, msgLoggerOnce := false, mkdirAllCalls := 0,
    openFileCalls := 0, warnings := [], written := [] }

/-- Lazily initialised logger (`getMsgLogger`, lines 23-51): the returned
pointer and the new state. -/
def getMsgLogger (d : Deps) (w : World) : Option Logger × World :=
  if w.msgLoggerOnce then (w.msgLogger, w)
  else
    let l : Logger := { Out := Sink.stderr, Formatter := Formatter.json RFC3339, Level := InfoLevel }
    let logPath := d.LogMessagesPath
    let w1 : World := { w with msgLoggerOnce := true, mkdirAllCalls := w.mkdirAllCalls + 1 }
    if d.MkdirAll w.mkdirAllCalls (d.Dir logPath) = false then
      let l1 : Logger := { l with Out := Sink.stdout }
      (some l1, { w1 with
        warnings := w1.warnings ++ ["Failed to create message log directory"],
        msgLogger := some l1 })
    else
      let w2 : World := { w1 with openFileCalls := w1.openFileCalls + 1 }
      if d.OpenFile w1.openFileCalls logPath = false then
        let l1 : Logger := { l with Out := Sink.stdout }
        (some l1, { w2 with
          warnings := w2.warnings ++ ["Failed to open message log file " ++ logPath],
          msgLogger := some l1 })
      else
        let l1 : Logger := { l with Out := Sink.file logPath }
        (some l1, { w2 with msgLogger := some l1 })

/-- Call `logger.WithFields(fields).Info(msg)`: one line is written to the
logger's sink when the level is enabled; a nil logger is a nil dereference
(`none`). -/
def WithFieldsInfo (logger : Option Logger) (fields : Fields) (msg : String) (w : World) :
    Option World :=
  match logger with
  | none => none
  | some l =>
    if InfoLevel ≤ l.Level then
      some { w with written := w.written ++ [(l.Out, { level := InfoLevel, message := msg, fields := fields })] }
    else some w

/-! ## The record emitters -/

/-- Device identifier of `LogIncomingMessage` (lines 55-58). -/
def LogIncomingMessage.deviceID (d : Deps) (client : Option whatsmeow.Client) : String :=
  match client with
  | none => ""
  | some c =>
    match c.Store with
    | none => ""
    | some s =>
      match s.ID with
      | none => ""
      | some id => d.JIDString (d.ToNonAD id)

/-- Type label of `LogIncomingMessage` (lines 60-63). -/
def LogIncomingMessage.msgType (evt : events.Message) : String :=
  if evt.Info.Type_ = "" then detectIncomingType evt.Message else evt.Info.Type_

/-- Record assembled by `LogIncomingMessage` (lines 55-76). -/
def LogIncomingMessage.fields (d : Deps) (evt : events.Message)
    (client : Option whatsmeow.Client) : Fields :=
  let deviceID := LogIncomingMessage.deviceID d client
  let msgType := LogIncomingMessage.msgType evt
  let fields : Fields :=
    [ ("device_id", Value.str deviceID),
      ("message_id", Value.str evt.Info.ID),
      ("from", Value.str (d.JIDString (d.ToNonAD evt.Info.Sender))),
      ("to", Value.str (d.JIDString (d.ToNonAD evt.Info.Chat))),
      ("is_from_me", Value.bool evt.Info.IsFromMe),
      ("type", Value.str msgType),
      ("timestamp", Value.str (d.FormatRFC3339 evt.Info.Timestamp)) ]
  if d.BuildEventMessageText evt ≠ "" then
    Fields.set fields "text" (Value.str (d.BuildEventMessageText evt))
  else fields

/-- Emitter `LogIncomingMessage` (lines 54-79): assembles the record and
writes it through the shared logger.  The event pointer is dereferenced
without a nil test, so the model takes a present event. -/
def LogIncomingMessage (d : Deps) (evt : events.Message) (client : Option whatsmeow.Client)
    (w : World) : Option World :=
  let fields := LogIncomingMessage.fields d evt client
  let (logger, w1) := getMsgLogger d w
  WithFieldsInfo logger fields "message" w1

/-- Record assembled by `LogOutgoingMessage` (lines 83-94). -/
def LogOutgoingMessage.fields (d : Deps) (msgID senderJID : String) (recipient : types.JID)
    (msg : Option waE2E.Message) (content : String) (ts : Int) : Fields :=
  let fields : Fields :=
    [ ("device_id", Value.str senderJID),
      ("message_id", Value.str msgID),
      ("from", Value.str senderJID),
      ("to", Value.str (d.JIDString (d.ToNonAD recipient))),
      ("is_from_me", Value.bool true),
      ("type", Value.str (detectOutgoingType msg content)),
      ("timestamp", Value.str (d.FormatRFC3339 ts)) ]
  if content ≠ "" then Fields.set fields "text" (Value.str content) else fields

/-- Emitter `LogOutgoingMessage` (lines 82-97): assembles the record and
writes it through the shared logger. -/
def LogOutgoingMessage (d : Deps) (msgID senderJID : String) (recipient : types.JID)
    (msg : Option waE2E.Message) (content : String) (ts : Int) (w : World) : Option World :=
  let fields := LogOutgoingMessage.fields d msgID senderJID recipient msg content ts
  let (logger, w1) := getMsgLogger d w
  WithFieldsInfo logger fields "message" w1

/-- The fixed label set of the record's `type` field. -/
def typeLabels : List String :=
  ["image", "video", "audio", "document", "sticker", "location", "contact",
   "reaction", "poll", "text", "unknown"]

/-! ## The library functions behind `Deps`

The identifier and time renderings that `Deps` abstracts are functions of the
whatsmeow library and of the Go standard library.  They are written out here
to evaluate the end-to-end scenarios with the renderings the program links
against. -/

/-- Method `JID.ToNonAD` of the whatsmeow library (`types/jid.go`): a copy of
the identifier that keeps user, server and integrator and clears the agent and
the device. -/
def types.JID.ToNonAD (jid : types.JID) : types.JID :=
  { User := jid.User, Server := jid.Server, Integrator := jid.Integrator,
    RawAgent := 0, Device := 0 }

/-- Method `JID.String` of the whatsmeow library (`types/jid.go`):
`user.agent:device@server` with an agent, `user:device@server` with a device
only, `user@server` with neither, and the server alone when the user is
empty. -/
def types.JID.String (jid : types.JID) : String :=
  if jid.RawAgent > 0 then
    jid.User ++ "." ++ toString jid.RawAgent ++ ":" ++ toString jid.Device ++ "@" ++ jid.Server
  else if jid.Device > 0 then
    jid.User ++ ":" ++ toString jid.Device ++ "@" ++ jid.Server
  else if jid.User ≠ "" then
    jid.User ++ "@" ++ jid.Server
  else jid.Server

/-- Decimal rendering padded with zeros to at least `width` digits. -/
def padZero (width n : Nat) : String :=
  let digits := toString n
  String.mk (List.replicate (width - digits.length) '0') ++ digits

/-- Civil date (year, month, day) of a day number counted from 1970-01-01 in
the proleptic Gregorian calendar. -/
def civilFromDays (days : Int) : Int × Nat × Nat :=
  let z := days + 719468
  let era := z / 146097
  let doe := (z % 146097).toNat
  let yoe := (doe - doe / 1460 + doe / 36524 - doe / 146096) / 365
  let doy := doe - (365 * yoe + yoe / 4 - yoe / 100)
  let mp := (5 * doy + 2) / 153
  let day := doy - (153 * mp + 2) / 5 + 1
  let month := if mp < 10 then mp + 3 else mp - 9
  let year := (yoe : Int) + era * 400 + (if month ≤ 2 then 1 else 0)
  (year, month, day)

/-- Rendering `t.UTC().Format(time.RFC3339)` of the Go standard library for an
instant given in seconds since the Unix epoch: `YYYY-MM-DDTHH:MM:SSZ`. -/
def formatRFC3339UTC (t : Int) : String :=
  let (year, month, day) := civilFromDays (t / 86400)
  let secs := (t % 86400).toNat
  (if year < 0 then "-" else "") ++ padZero 4 year.natAbs ++ "-" ++ padZero 2 month ++ "-"
    ++ padZero 2 day ++ "T" ++ padZero 2 (secs / 3600) ++ ":" ++ padZero 2 (secs % 3600 / 60)
    ++ ":" ++ padZero 2 (secs % 60) ++ "Z"

/-! ## Sequences of calls -/

/-- One call of an emitter with its arguments. -/
inductive EmitterCall where
  | incoming (evt : events.Message) (client : Option whatsmeow.Client)
  | outgoing (msgID senderJID : String) (recipient : types.JID)
      (msg : Option waE2E.Message) (content : String) (ts : Int)

/-- Record that the called emitter assembles. -/
def EmitterCall.fields (d : Deps) (c : EmitterCall) : Fields :=
  match c with
  | EmitterCall.incoming evt client => LogIncomingMessage.fields d evt client
  | EmitterCall.outgoing msgID senderJID recipient msg content ts =>
    LogOutgoingMessage.fields d msgID senderJID recipient msg content ts

/-- Effect of the call on the process state. -/
def EmitterCall.run (d : Deps) (c : EmitterCall) (w : World) : Option World :=
  match c with
  | EmitterCall.incoming evt client => LogIncomingMessage d evt client w
  | EmitterCall.outgoing msgID senderJID recipient msg content ts =>
    LogOutgoingMessage d msgID senderJID recipient msg content ts w

/-- Emitter calls made one after the other; `none` when one of them fails. -/
def runCalls (d : Deps) (calls : List EmitterCall) (w : World) : Option World :=
  match calls with
  | [] => some w
  | c :: rest =>
    match c.run d w with
    | none => none
    | some w1 => runCalls d rest w1

/-- The pointers returned by `n` successive calls of `getMsgLogger`, in call
order, and the state after the last one. -/
def getMsgLoggerTimes (d : Deps) (n : Nat) (w : World) : List (Option Logger) × World :=
  match n with
  | 0 => ([], w)
  | k + 1 =>
    let r := getMsgLogger d w
    let rs := getMsgLoggerTimes d k r.2
    (r.1 :: rs.1, rs.2)

/-! ## Concrete inputs -/

/-- A concrete choice of the parameters, to evaluate the model on examples:
identifiers render as `user@server`, instants as their number of seconds, the
extracted text is the payload's conversation, and the file system accepts
every call. -/
def sampleDeps : Deps :=
  { ToNonAD := fun j => { j with RawAgent := 0, Device := 0 },
    JIDString := fun j => j.User ++ "@" ++ j.Server,
    FormatRFC3339 := fun t => toString t,
    BuildEventMessageText := fun evt =>
      match evt.Message with
      | some m => m.Conversation.getD ""
      | none => "",
    LogMessagesPath := "storages/messages.log",
    Dir := fun _ => "storages",
    MkdirAll := fun _ _ => true,
    OpenFile := fun _ _ => true }

/-- A user identifier on the default server, without device suffix. -/
def sampleJID (user : String) : types.JID :=
  { User := user, RawAgent := 0, Device := 0, Integrator := 0, Server := "s.whatsapp.net" }

/-- An incoming event with the given type hint and payload. -/
def sampleEvent (hint : String) (msg : Option waE2E.Message) : events.Message :=
  { Info := { Chat := sampleJID "67890", Sender := sampleJID "12345", IsFromMe := false,
              ID := "ABC123", Type_ := hint, Timestamp := 1704067200 },
    Message := msg }

/-- A payload carrying a sticker, a contact, a reaction and a poll creation. -/
def stickerContactReactionPoll : waE2E.Message :=
  { waE2E.Message.empty with
    StickerMessage := some { raw := [] }, ContactMessage := some { raw := [] },
    ReactionMessage := some { raw := [] }, PollCreationMessage := some { raw := [] } }

/-- A payload carrying an image only. -/
def imageOnly : waE2E.Message :=
  { waE2E.Message.empty with ImageMessage := some { raw := [] } }

/-- A payload carrying a reaction only. -/
def reactionOnly : waE2E.Message :=
  { waE2E.Message.empty with ReactionMessage := some { raw := [] } }

/-- A payload carrying a reaction and a poll creation. -/
def reactionAndPoll : waE2E.Message :=
  { waE2E.Message.empty with
    ReactionMessage := some { raw := [] }, PollCreationMessage := some { raw := [] } }

/-- A payload carrying a poll creation only. -/
def pollOnly : waE2E.Message :=
  { waE2E.Message.empty with PollCreationMessage := some { raw := [] } }

/-- A plain text payload. -/
def plainText : waE2E.Message :=
  { waE2E.Message.empty with Conversation := some "hello" }

/-- The parameters with the library renderings of identifiers and instants;
the other parameters are those of `sampleDeps`. -/
def libraryDeps : Deps :=
  { sampleDeps with
    ToNonAD := types.JID.ToNonAD,
    JIDString := types.JID.String,
    FormatRFC3339 := formatRFC3339UTC }

/-- Parameters whose directory creation always fails. -/
def mkdirFailsDeps : Deps :=
  { sampleDeps with MkdirAll := fun _ _ => false }

/-- Parameters whose directory creation succeeds and whose file open always
fails. -/
def openFailsDeps : Deps :=
  { sampleDeps with OpenFile := fun _ _ => false }

/-- A client session logged in as user 55555, device 7. -/
def sampleClient : whatsmeow.Client :=
  { Store := some { ID := some { User := "55555", RawAgent := 0, Device := 7, Integrator := 0,
                                 Server := "s.whatsapp.net" } } }

/-! ## Helper lemmas -/

/-- A property of both branches of a conditional holds of the conditional. -/
theorem ite_of_both {α : Type} (P : α → Prop) (c : Prop) [Decidable c] (a b : α)
    (ha : P a) (hb : P b) : P (if c then a else b) := by
  by_cases h : c
  · rw [if_pos h]; exact ha
  · rw [if_neg h]; exact hb

/-- The `type` field of the incoming record is the label of lines 60-63. -/
theorem incoming_fields_type (d : Deps) (evt : events.Message)
    (client : Option whatsmeow.Client) :
    Fields.get (LogIncomingMessage.fields d evt client) "type"
      = some (Value.str (LogIncomingMessage.msgType evt)) := by
  unfold LogIncomingMessage.fields
  split_ifs <;> simp [Fields.get, Fields.set]

/-- The `type` field of the outgoing record is the outgoing classifier's label. -/
theorem outgoing_fields_type (d : Deps) (msgID senderJID : String)
    (recipient : types.JID) (msg : Option waE2E.Message) (content : String) (ts : Int) :
    Fields.get (LogOutgoingMessage.fields d msgID senderJID recipient msg content ts) "type"
      = some (Value.str (detectOutgoingType msg content)) := by
  unfold LogOutgoingMessage.fields
  split_ifs <;> simp [Fields.get, Fields.set]

/-- With an empty hint the label is the incoming classifier's. -/
theorem incoming_msgType_of_empty (evt : events.Message)
    (hhint : evt.Info.Type_ = "") :
    LogIncomingMessage.msgType evt = detectIncomingType evt.Message := by
  simp [LogIncomingMessage.msgType, hhint]

/-- Every label of the incoming classifier is in the label set. -/
theorem detectIncomingType_mem (msg : Option waE2E.Message) :
    detectIncomingType msg ∈ typeLabels := by
  unfold detectIncomingType
  iterate 10 refine ite_of_both (fun s => s ∈ typeLabels) _ _ _ (by decide) ?_
  decide

/-- Every label of the outgoing classifier is in the label set. -/
theorem detectOutgoingType_mem (msg : Option waE2E.Message) (content : String) :
    detectOutgoingType msg content ∈ typeLabels := by
  unfold detectOutgoingType
  refine ite_of_both (fun s => s ∈ typeLabels) _ _ _ ?_ ?_
  · exact ite_of_both (fun s => s ∈ typeLabels) _ _ _ (by decide) (by decide)
  iterate 8 refine ite_of_both (fun s => s ∈ typeLabels) _ _ _ (by decide) ?_
  decide

/-! ## Classifier priority -/

/-- C1: for an incoming event with an empty type hint and a present payload
`m`, the `type` field of the record is `detectIncomingType (some m)`, and for
each of image, video, audio, document, sticker, location, contact in this
order: if the variant is present and every earlier one is absent, the
classifier returns its label, whatever later variants are present. -/
theorem detectIncomingType_priority (d : Deps) (evt : events.Message)
    (client : Option whatsmeow.Client) (m : waE2E.Message)
    (hhint : evt.Info.Type_ = "") (hmsg : evt.Message = some m) :
    Fields.get (LogIncomingMessage.fields d evt client) "type"
        = some (Value.str (detectIncomingType (some m))) ∧
    (m.ImageMessage ≠ none → detectIncomingType (some m) = "image") ∧
    (m.ImageMessage = none → m.VideoMessage ≠ none →
      detectIncomingType (some m) = "video") ∧
    (m.ImageMessage = none → m.VideoMessage = none → m.AudioMessage ≠ none →
      detectIncomingType (some m) = "audio") ∧
    (m.ImageMessage = none → m.VideoMessage = none → m.AudioMessage = none →
      m.DocumentMessage ≠ none → detectIncomingType (some m) = "document") ∧
    (m.ImageMessage = none → m.VideoMessage = none → m.AudioMessage = none →
      m.DocumentMessage = none → m.StickerMessage ≠ none →
      detectIncomingType (some m) = "sticker") ∧
    (m.ImageMessage = none → m.VideoMessage = none → m.AudioMessage = none →
      m.DocumentMessage = none → m.StickerMessage = none → m.LocationMessage ≠ none →
      detectIncomingType (some m) = "location") ∧
    (m.ImageMessage = none → m.VideoMessage = none → m.AudioMessage = none →
      m.DocumentMessage = none → m.StickerMessage = none → m.LocationMessage = none →
      m.ContactMessage ≠ none → detectIncomingType (some m) = "contact") := by
  refine ⟨?_, ?_, ?_, ?_, ?_, ?_, ?_, ?_⟩
  · rw [incoming_fields_type, incoming_msgType_of_empty evt hhint, hmsg]
  · intro h1
    simp [detectIncomingType, waE2E.GetImageMessage, Option.isSome_iff_ne_none, h1]
  · intro h1 h2
    simp [detectIncomingType, waE2E.GetImageMessage, waE2E.GetVideoMessage,
      Option.isSome_iff_ne_none, h1, h2]
  · intro h1 h2 h3
    simp [detectIncomingType, waE2E.GetImageMessage, waE2E.GetVideoMessage,
      waE2E.GetAudioMessage, Option.isSome_iff_ne_none, h1, h2, h3]
  · intro h1 h2 h3 h4
    simp [detectIncomingType, waE2E.GetImageMessage, waE2E.GetVideoMessage,
      waE2E.GetAudioMessage, waE2E.GetDocumentMessage, Option.isSome_iff_ne_none,
      h1, h2, h3, h4]
  · intro h1 h2 h3 h4 h5
    simp [detectIncomingType, waE2E.GetImageMessage, waE2E.GetVideoMessage,
      waE2E.GetAudioMessage, waE2E.GetDocumentMessage, waE2E.GetStickerMessage,
      Option.isSome_iff_ne_none, h1, h2, h3, h4, h5]
  · intro h1 h2 h3 h4 h5 h6
    simp [detectIncomingType, waE2E.GetImageMessage, waE2E.GetVideoMessage,
      waE2E.GetAudioMessage, waE2E.GetDocumentMessage, waE2E.GetStickerMessage,
      waE2E.GetLocationMessage, Option.isSome_iff_ne_none, h1, h2, h3, h4, h5, h6]
  · intro h1 h2 h3 h4 h5 h6 h7
    simp [detectIncomingType, waE2E.GetImageMessage, waE2E.GetVideoMessage,
      waE2E.GetAudioMessage, waE2E.GetDocumentMessage, waE2E.GetStickerMessage,
      waE2E.GetLocationMessage, waE2E.GetContactMessage, Option.isSome_iff_ne_none,
      h1, h2, h3, h4, h5, h6, h7]

/-- Witness of C1: a payload with a sticker, a contact, a reaction and a poll
creation, in an event without hint, is labelled "sticker". -/
theorem detectIncomingType_priority_witness :
    (sampleEvent "" (some stickerContactReactionPoll)).Info.Type_ = "" ∧
    stickerContactReactionPoll.StickerMessage ≠ none ∧
    stickerContactReactionPoll.ContactMessage ≠ none ∧
    Fields.get (LogIncomingMessage.fields sampleDeps
        (sampleEvent "" (some stickerContactReactionPoll)) none) "type"
      = some (Value.str (detectIncomingType (some stickerContactReactionPoll))) ∧
    detectIncomingType (some stickerContactReactionPoll) = "sticker" :=
  have h := detectIncomingType_priority sampleDeps
    (sampleEvent "" (some stickerContactReactionPoll)) none stickerContactReactionPoll rfl rfl
  ⟨rfl, by decide, by decide, h.1, h.2.2.2.2.2.1 rfl rfl rfl rfl (by decide)⟩

/-- C2: for a present payload `m` and every content string, for each of image,
video, audio, document, sticker, location, contact in this order: if the
variant is present and every earlier one is absent, the outgoing classifier
returns its label, whatever later variants are present. -/
theorem detectOutgoingType_priority (m : waE2E.Message) (content : String) :
    (m.ImageMessage ≠ none → detectOutgoingType (some m) content = "image") ∧
    (m.ImageMessage = none → m.VideoMessage ≠ none →
      detectOutgoingType (some m) content = "video") ∧
    (m.ImageMessage = none → m.VideoMessage = none → m.AudioMessage ≠ none →
      detectOutgoingType (some m) content = "audio") ∧
    (m.ImageMessage = none → m.VideoMessage = none → m.AudioMessage = none →
      m.DocumentMessage ≠ none → detectOutgoingType (some m) content = "document") ∧
    (m.ImageMessage = none → m.VideoMessage = none → m.AudioMessage = none →
      m.DocumentMessage = none → m.StickerMessage ≠ none →
      detectOutgoingType (some m) content = "sticker") ∧
    (m.ImageMessage = none → m.VideoMessage = none → m.AudioMessage = none →
      m.DocumentMessage = none → m.StickerMessage = none → m.LocationMessage ≠ none →
      detectOutgoingType (some m) content = "location") ∧
    (m.ImageMessage = none → m.VideoMessage = none → m.AudioMessage = none →
      m.DocumentMessage = none → m.StickerMessage = none → m.LocationMessage = none →
      m.ContactMessage ≠ none → detectOutgoingType (some m) content = "contact") := by
  refine ⟨?_, ?_, ?_, ?_, ?_, ?_, ?_⟩
  · intro h1
    simp [detectOutgoingType, waE2E.GetImageMessage, Option.isSome_iff_ne_none, h1]
  · intro h1 h2
    simp [detectOutgoingType, waE2E.GetImageMessage, waE2E.GetVideoMessage,
      Option.isSome_iff_ne_none, h1, h2]
  · intro h1 h2 h3
    simp [detectOutgoingType, waE2E.GetImageMessage, waE2E.GetVideoMessage,
      waE2E.GetAudioMessage, Option.isSome_iff_ne_none, h1, h2, h3]
  · intro h1 h2 h3 h4
    simp [detectOutgoingType, waE2E.GetImageMessage, waE2E.GetVideoMessage,
      waE2E.GetAudioMessage, waE2E.GetDocumentMessage, Option.isSome_iff_ne_none,
      h1, h2, h3, h4]
  · intro h1 h2 h3 h4 h5
    simp [detectOutgoingType, waE2E.GetImageMessage, waE2E.GetVideoMessage,
      waE2E.GetAudioMessage, waE2E.GetDocumentMessage, waE2E.GetStickerMessage,
      Option.isSome_iff_ne_none, h1, h2, h3, h4, h5]
  · intro h1 h2 h3 h4 h5 h6
    simp [detectOutgoingType, waE2E.GetImageMessage, waE2E.GetVideoMessage,
      waE2E.GetAudioMessage, waE2E.GetDocumentMessage, waE2E.GetStickerMessage,
      waE2E.GetLocationMessage, Option.isSome_iff_ne_none, h1, h2, h3, h4, h5, h6]
  · intro h1 h2 h3 h4 h5 h6 h7
    simp [detectOutgoingType, waE2E.GetImageMessage, waE2E.GetVideoMessage,
      waE2E.GetAudioMessage, waE2E.GetDocumentMessage, waE2E.GetStickerMessage,
      waE2E.GetLocationMessage, waE2E.GetContactMessage, Option.isSome_iff_ne_none,
      h1, h2, h3, h4, h5, h6, h7]

/-- Witness of C2: a payload with a sticker, a contact, a reaction and a poll
creation is labelled "sticker" on the outgoing side, with empty content. -/
theorem detectOutgoingType_priority_witness :
    stickerContactReactionPoll.StickerMessage ≠ none ∧
    stickerContactReactionPoll.ContactMessage ≠ none ∧
    detectOutgoingType (some stickerContactReactionPoll) "" = "sticker" :=
  ⟨by decide, by decide,
   (detectOutgoingType_priority stickerContactReactionPoll "").2.2.2.2.1
     rfl rfl rfl rfl (by decide)⟩

/-! ## The type hint and the label set -/

/-- C3: when the type hint of an incoming event is a non-empty string, the
`type` field of the record assembled by `LogIncomingMessage` is that string,
for every payload, client and choice of the parameters. -/
theorem LogIncomingMessage_type_of_hint (d : Deps) (evt : events.Message)
    (client : Option whatsmeow.Client) (hhint : evt.Info.Type_ ≠ "") :
    Fields.get (LogIncomingMessage.fields d evt client) "type"
      = some (Value.str evt.Info.Type_) := by
  rw [incoming_fields_type]
  simp [LogIncomingMessage.msgType, hhint]

/-- Witness of C3: with the hint "poll" and an image payload the record's
type is "poll". -/
theorem LogIncomingMessage_type_of_hint_witness :
    (sampleEvent "poll" (some imageOnly)).Info.Type_ ≠ "" ∧
    Fields.get (LogIncomingMessage.fields sampleDeps (sampleEvent "poll" (some imageOnly)) none)
        "type" = some (Value.str "poll") :=
  ⟨by decide,
   LogIncomingMessage_type_of_hint sampleDeps (sampleEvent "poll" (some imageOnly)) none
     (by decide)⟩

/-- C4 fails as stated: an incoming event whose type hint is "media" gets a
record whose `type` field is "media", which is not in the label set. -/
theorem LogIncomingMessage_type_outside_labels :
    Fields.get (LogIncomingMessage.fields sampleDeps (sampleEvent "media" (some imageOnly)) none)
        "type" = some (Value.str "media") ∧
    "media" ∉ typeLabels ∧
    ¬ ∃ l, l ∈ typeLabels ∧
      Fields.get (LogIncomingMessage.fields sampleDeps (sampleEvent "media" (some imageOnly)) none)
        "type" = some (Value.str l) := by
  have h : Fields.get
      (LogIncomingMessage.fields sampleDeps (sampleEvent "media" (some imageOnly)) none) "type"
      = some (Value.str "media") := by
    rw [incoming_fields_type]
    rfl
  refine ⟨h, by decide, ?_⟩
  rintro ⟨l, hl, hget⟩
  rw [h] at hget
  have hl2 : "media" = l := by
    injection hget with h1
    injection h1
  subst hl2
  revert hl
  decide

/-- C4 as amended: the `type` field of every outgoing record is in the label
set; the `type` field of an incoming record is in the label set when the
event's type hint is empty, and is the hint itself when the hint is not
empty. -/
theorem type_field_in_labels (d : Deps) (evt : events.Message)
    (client : Option whatsmeow.Client) (msgID senderJID : String) (recipient : types.JID)
    (msg : Option waE2E.Message) (content : String) (ts : Int) :
    (∃ l, l ∈ typeLabels ∧
      Fields.get (LogOutgoingMessage.fields d msgID senderJID recipient msg content ts) "type"
        = some (Value.str l)) ∧
    (evt.Info.Type_ = "" → ∃ l, l ∈ typeLabels ∧
      Fields.get (LogIncomingMessage.fields d evt client) "type" = some (Value.str l)) ∧
    (evt.Info.Type_ ≠ "" →
      Fields.get (LogIncomingMessage.fields d evt client) "type"
        = some (Value.str evt.Info.Type_)) := by
  refine ⟨⟨_, detectOutgoingType_mem msg content, outgoing_fields_type _ _ _ _ _ _ _⟩,
    ?_, ?_⟩
  · intro hhint
    refine ⟨_, detectIncomingType_mem evt.Message, ?_⟩
    rw [incoming_fields_type, incoming_msgType_of_empty evt hhint]
  · intro hhint
    rw [incoming_fields_type]
    simp [LogIncomingMessage.msgType, hhint]

/-- Witness of C4 as amended: an outgoing reaction payload and an incoming
event without hint get a label of the set, and the hint "media" is kept. -/
theorem type_field_in_labels_witness :
    (∃ l, l ∈ typeLabels ∧
      Fields.get (LogOutgoingMessage.fields sampleDeps "ABC123" "99999" (sampleJID "11111")
        (some reactionOnly) "" 1704067200) "type" = some (Value.str l)) ∧
    (∃ l, l ∈ typeLabels ∧
      Fields.get (LogIncomingMessage.fields sampleDeps (sampleEvent "" (some reactionOnly)) none)
        "type" = some (Value.str l)) ∧
    Fields.get (LogIncomingMessage.fields sampleDeps (sampleEvent "media" none) none) "type"
      = some (Value.str "media") :=
  ⟨(type_field_in_labels sampleDeps (sampleEvent "" (some reactionOnly)) none "ABC123" "99999"
      (sampleJID "11111") (some reactionOnly) "" 1704067200).1,
   (type_field_in_labels sampleDeps (sampleEvent "" (some reactionOnly)) none "ABC123" "99999"
      (sampleJID "11111") (some reactionOnly) "" 1704067200).2.1 rfl,
   (type_field_in_labels sampleDeps (sampleEvent "media" none) none "ABC123" "99999"
      (sampleJID "11111") none "" 1704067200).2.2 (by decide)⟩

/-! ## Reaction, poll and the fallback labels -/

/-- C5: the outgoing classifier never returns "reaction", for an absent
payload or a present one with any variants, and every content string. -/
theorem detectOutgoingType_ne_reaction (msg : Option waE2E.Message) (content : String) :
    detectOutgoingType msg content ≠ "reaction" := by
  unfold detectOutgoingType
  refine ite_of_both (fun s => s ≠ "reaction") _ _ _ ?_ ?_
  · exact ite_of_both (fun s => s ≠ "reaction") _ _ _ (by decide) (by decide)
  iterate 8 refine ite_of_both (fun s => s ≠ "reaction") _ _ _ (by decide) ?_
  decide

/-- C6: for an incoming event with an empty type hint whose payload is present
and carries a reaction and none of image, video, audio, document, sticker,
location, contact, the classifier returns "reaction" and the record's `type`
is "reaction", whether or not a poll creation is present too. -/
theorem detectIncomingType_reaction (d : Deps) (evt : events.Message)
    (client : Option whatsmeow.Client) (m : waE2E.Message)
    (hhint : evt.Info.Type_ = "") (hmsg : evt.Message = some m)
    (h1 : m.ImageMessage = none) (h2 : m.VideoMessage = none) (h3 : m.AudioMessage = none)
    (h4 : m.DocumentMessage = none) (h5 : m.StickerMessage = none)
    (h6 : m.LocationMessage = none) (h7 : m.ContactMessage = none)
    (h8 : m.ReactionMessage ≠ none) :
    detectIncomingType (some m) = "reaction" ∧
    Fields.get (LogIncomingMessage.fields d evt client) "type"
      = some (Value.str "reaction") := by
  have h : detectIncomingType (some m) = "reaction" := by
    simp [detectIncomingType, waE2E.GetImageMessage, waE2E.GetVideoMessage,
      waE2E.GetAudioMessage, waE2E.GetDocumentMessage, waE2E.GetStickerMessage,
      waE2E.GetLocationMessage, waE2E.GetContactMessage, waE2E.GetReactionMessage,
      Option.isSome_iff_ne_none, h1, h2, h3, h4, h5, h6, h7, h8]
  refine ⟨h, ?_⟩
  rw [incoming_fields_type, incoming_msgType_of_empty evt hhint, hmsg, h]

/-- Witness of C6: a payload with a reaction and a poll creation, in an event
without hint, is labelled "reaction". -/
theorem detectIncomingType_reaction_witness :
    reactionAndPoll.ReactionMessage ≠ none ∧ reactionAndPoll.PollCreationMessage ≠ none ∧
    detectIncomingType (some reactionAndPoll) = "reaction" ∧
    Fields.get (LogIncomingMessage.fields sampleDeps (sampleEvent "" (some reactionAndPoll)) none)
        "type" = some (Value.str "reaction") :=
  ⟨by decide, by decide,
   detectIncomingType_reaction sampleDeps (sampleEvent "" (some reactionAndPoll)) none
     reactionAndPoll rfl rfl rfl rfl rfl rfl rfl rfl rfl (by decide)⟩

/-- C7: on an absent payload the outgoing classifier returns "text" when the
content is not empty and "unknown" when it is empty. -/
theorem detectOutgoingType_nil (content : String) :
    (content ≠ "" → detectOutgoingType none content = "text") ∧
    (content = "" → detectOutgoingType none content = "unknown") := by
  constructor
  · intro h
    simp [detectOutgoingType, h]
  · intro h
    simp [detectOutgoingType, h]

/-- Witness of C7: content "hello" gives "text", empty content "unknown". -/
theorem detectOutgoingType_nil_witness :
    detectOutgoingType none "hello" = "text" ∧ detectOutgoingType none "" = "unknown" :=
  ⟨(detectOutgoingType_nil "hello").1 (by decide), (detectOutgoingType_nil "").2 rfl⟩

/-- C8: `detectIncomingType` returns "unknown" on an absent payload, and for
every incoming event with an empty type hint and an absent payload the
record's `type` is "unknown". -/
theorem detectIncomingType_nil (d : Deps) (evt : events.Message)
    (client : Option whatsmeow.Client)
    (hhint : evt.Info.Type_ = "") (hmsg : evt.Message = none) :
    detectIncomingType none = "unknown" ∧
    Fields.get (LogIncomingMessage.fields d evt client) "type"
      = some (Value.str "unknown") := by
  have h : detectIncomingType none = "unknown" := by
    simp [detectIncomingType]
  refine ⟨h, ?_⟩
  rw [incoming_fields_type, incoming_msgType_of_empty evt hhint, hmsg, h]

/-- Witness of C8: the event without hint and without payload. -/
theorem detectIncomingType_nil_witness :
    (sampleEvent "" none).Info.Type_ = "" ∧ (sampleEvent "" none).Message = none ∧
    detectIncomingType none = "unknown" ∧
    Fields.get (LogIncomingMessage.fields sampleDeps (sampleEvent "" none) none) "type"
      = some (Value.str "unknown") :=
  ⟨rfl, rfl, detectIncomingType_nil sampleDeps (sampleEvent "" none) none rfl rfl⟩

/-- C9: for an incoming event with an empty type hint whose payload is present
and carries a poll creation and none of image, video, audio, document,
sticker, location, contact, reaction, the classifier returns "poll" and the
record's `type` is "poll". -/
theorem detectIncomingType_poll (d : Deps) (evt : events.Message)
    (client : Option whatsmeow.Client) (m : waE2E.Message)
    (hhint : evt.Info.Type_ = "") (hmsg : evt.Message = some m)
    (h1 : m.ImageMessage = none) (h2 : m.VideoMessage = none) (h3 : m.AudioMessage = none)
    (h4 : m.DocumentMessage = none) (h5 : m.StickerMessage = none)
    (h6 : m.LocationMessage = none) (h7 : m.ContactMessage = none)
    (h8 : m.ReactionMessage = none) (h9 : m.PollCreationMessage ≠ none) :
    detectIncomingType (some m) = "poll" ∧
    Fields.get (LogIncomingMessage.fields d evt client) "type" = some (Value.str "poll") := by
  have h : detectIncomingType (some m) = "poll" := by
    simp [detectIncomingType, waE2E.GetImageMessage, waE2E.GetVideoMessage,
      waE2E.GetAudioMessage, waE2E.GetDocumentMessage, waE2E.GetStickerMessage,
      waE2E.GetLocationMessage, waE2E.GetContactMessage, waE2E.GetReactionMessage,
      waE2E.GetPollCreationMessage, Option.isSome_iff_ne_none,
      h1, h2, h3, h4, h5, h6, h7, h8, h9]
  refine ⟨h, ?_⟩
  rw [incoming_fields_type, incoming_msgType_of_empty evt hhint, hmsg, h]

/-- Witness of C9: a payload with a poll creation only, in an event without
hint, is labelled "poll". -/
theorem detectIncomingType_poll_witness :
    pollOnly.PollCreationMessage ≠ none ∧
    detectIncomingType (some pollOnly) = "poll" ∧
    Fields.get (LogIncomingMessage.fields sampleDeps (sampleEvent "" (some pollOnly)) none)
        "type" = some (Value.str "poll") :=
  ⟨by decide,
   detectIncomingType_poll sampleDeps (sampleEvent "" (some pollOnly)) none pollOnly
     rfl rfl rfl rfl rfl rfl rfl rfl rfl rfl (by decide)⟩

/-- C10: for a present payload that carries none of image, video, audio,
document, sticker, location, contact, reaction, poll creation, the incoming
classifier returns "text" and the outgoing classifier returns "text" for every
content string, the empty one included; both classifiers are total
functions. -/
theorem detect_default_text (m : waE2E.Message)
    (h1 : m.ImageMessage = none) (h2 : m.VideoMessage = none) (h3 : m.AudioMessage = none)
    (h4 : m.DocumentMessage = none) (h5 : m.StickerMessage = none)
    (h6 : m.LocationMessage = none) (h7 : m.ContactMessage = none)
    (h8 : m.ReactionMessage = none) (h9 : m.PollCreationMessage = none) :
    detectIncomingType (some m) = "text" ∧
    ∀ content : String, detectOutgoingType (some m) content = "text" := by
  constructor
  · simp [detectIncomingType, waE2E.GetImageMessage, waE2E.GetVideoMessage,
      waE2E.GetAudioMessage, waE2E.GetDocumentMessage, waE2E.GetStickerMessage,
      waE2E.GetLocationMessage, waE2E.GetContactMessage, waE2E.GetReactionMessage,
      waE2E.GetPollCreationMessage, h1, h2, h3, h4, h5, h6, h7, h8, h9]
  · intro content
    simp [detectOutgoingType, waE2E.GetImageMessage, waE2E.GetVideoMessage,
      waE2E.GetAudioMessage, waE2E.GetDocumentMessage, waE2E.GetStickerMessage,
      waE2E.GetLocationMessage, waE2E.GetContactMessage,
      waE2E.GetPollCreationMessage, h1, h2, h3, h4, h5, h6, h7, h9]

/-- Witness of C10: the plain text payload is labelled "text" by both
classifiers, on the outgoing side also with empty content. -/
theorem detect_default_text_witness :
    detectIncomingType (some plainText) = "text" ∧
    detectOutgoingType (some plainText) "" = "text" ∧
    detectOutgoingType (some plainText) "hello" = "text" :=
  have h := detect_default_text plainText rfl rfl rfl rfl rfl rfl rfl rfl rfl
  ⟨h.1, h.2 "", h.2 "hello"⟩

/-! ## The logger: helper lemmas -/

/-- Once the done flag is set, `getMsgLogger` returns the stored pointer and
leaves the state as it is. -/
theorem getMsgLogger_done (d : Deps) (w : World) (hdone : w.msgLoggerOnce = true) :
    getMsgLogger d w = (w.msgLogger, w) := by
  simp [getMsgLogger, hdone]

/-- The first call of `getMsgLogger` (done flag unset): it returns a logger
with the JSON formatter and the info level, stores it, sets the flag, attempts
one directory creation and, when that succeeds, one file open, and writes no
record. -/
theorem getMsgLogger_first (d : Deps) (w : World) (hfirst : w.msgLoggerOnce = false) :
    ∃ (l : Logger) (w1 : World), getMsgLogger d w = (some l, w1) ∧
      w1.msgLogger = some l ∧ w1.msgLoggerOnce = true ∧
      l.Formatter = Formatter.json RFC3339 ∧ l.Level = InfoLevel ∧
      l.Out = (if d.MkdirAll w.mkdirAllCalls (d.Dir d.LogMessagesPath) = false then Sink.stdout
        else if d.OpenFile w.openFileCalls d.LogMessagesPath = false then Sink.stdout
        else Sink.file d.LogMessagesPath) ∧
      w1.written = w.written ∧
      w1.mkdirAllCalls = w.mkdirAllCalls + 1 ∧
      w1.openFileCalls = w.openFileCalls +
        (if d.MkdirAll w.mkdirAllCalls (d.Dir d.LogMessagesPath) = false then 0 else 1) := by
  by_cases hm : d.MkdirAll w.mkdirAllCalls (d.Dir d.LogMessagesPath) = false
  · refine ⟨{ Out := Sink.stdout, Formatter := Formatter.json RFC3339, Level := InfoLevel },
      (getMsgLogger d w).2, ?_, ?_, ?_, rfl, rfl, ?_, ?_, ?_, ?_⟩ <;>
      simp [getMsgLogger, hfirst, hm]
  · by_cases ho : d.OpenFile w.openFileCalls d.LogMessagesPath = false
    · refine ⟨{ Out := Sink.stdout, Formatter := Formatter.json RFC3339, Level := InfoLevel },
        (getMsgLogger d w).2, ?_, ?_, ?_, rfl, rfl, ?_, ?_, ?_, ?_⟩ <;>
        simp [getMsgLogger, hfirst, hm, ho]
    · refine ⟨Logger.mk (Sink.file d.LogMessagesPath) (Formatter.json RFC3339) InfoLevel,
        (getMsgLogger d w).2, ?_, ?_, ?_, rfl, rfl, ?_, ?_, ?_, ?_⟩ <;>
        simp [getMsgLogger, hfirst, hm, ho]

/-- An emitter call in a state whose logger is initialised writes one line,
with the assembled record, to the logger's sink, and changes nothing else. -/
theorem EmitterCall.run_ready (d : Deps) (c : EmitterCall) (w : World) (l : Logger)
    (hdone : w.msgLoggerOnce = true) (hlog : w.msgLogger = some l) (hlevel : l.Level = InfoLevel) :
    c.run d w = some { w with written := w.written ++
      [(l.Out, { level := InfoLevel, message := "message", fields := c.fields d })] } := by
  cases c <;>
    simp [EmitterCall.run, EmitterCall.fields, LogIncomingMessage, LogOutgoingMessage,
      getMsgLogger_done d w hdone, hlog, WithFieldsInfo, hlevel]

/-- An emitter call whose `getMsgLogger` returns the logger `l` and the state
`w1` writes one line, with the assembled record, to the sink of `l`. -/
theorem EmitterCall.run_of_get (d : Deps) (c : EmitterCall) (w w1 : World) (l : Logger)
    (hget : getMsgLogger d w = (some l, w1)) (hlevel : l.Level = InfoLevel) :
    c.run d w = some { w1 with written := w1.written ++
      [(l.Out, { level := InfoLevel, message := "message", fields := c.fields d })] } := by
  cases c <;>
    simp [EmitterCall.run, EmitterCall.fields, LogIncomingMessage, LogOutgoingMessage,
      hget, WithFieldsInfo, hlevel]

/-- Emitter calls in a state whose logger is initialised write one line each,
in call order, all to the logger's sink, and keep the logger. -/
theorem runCalls_ready (d : Deps) (calls : List EmitterCall) (w : World) (l : Logger)
    (hdone : w.msgLoggerOnce = true) (hlog : w.msgLogger = some l) (hlevel : l.Level = InfoLevel) :
    runCalls d calls w = some
      { w with
        written := w.written ++ calls.map (fun c =>
          (l.Out, { level := InfoLevel, message := "message", fields := c.fields d })) } := by
  induction calls generalizing w with
  | nil => simp [runCalls]
  | cons c rest ih =>
    rw [runCalls, EmitterCall.run_ready d c w l hdone hlog hlevel]
    refine (ih _ ?_ ?_).trans ?_
    · exact hdone
    · exact hlog
    · simp
/-! ## End-to-end scenarios -/

/-- C11 fails as stated: with the library renderings, the outgoing call with
sender "99999", recipient user 11111 on `s.whatsapp.net`, no payload and
content "hello" assembles a record whose `to` is "11111@s.whatsapp.net", not
"11111". -/
theorem LogOutgoingMessage_scenario_to_keeps_server :
    Fields.get (LogOutgoingMessage.fields libraryDeps "3EB0" "99999" (sampleJID "11111") none
        "hello" 1704067200) "to" = some (Value.str "11111@s.whatsapp.net") ∧
    Fields.get (LogOutgoingMessage.fields libraryDeps "3EB0" "99999" (sampleJID "11111") none
        "hello" 1704067200) "to" ≠ some (Value.str "11111") := by
  constructor
  · rfl
  · decide

/-- C11 as amended: when identifiers are rendered by the library's `ToNonAD`
and `String`, the outgoing call with sender "99999", recipient user 11111 on
`s.whatsapp.net`, no payload and content "hello" assembles, for every message
id and timestamp, a record with type "text", text "hello", from "99999",
is_from_me true and to "11111@s.whatsapp.net": the agent and the device are
cleared, the server part is kept. -/
theorem LogOutgoingMessage_scenario (d : Deps) (msgID : String) (ts : Int)
    (hnonad : d.ToNonAD = types.JID.ToNonAD) (hstring : d.JIDString = types.JID.String) :
    Fields.get (LogOutgoingMessage.fields d msgID "99999" (sampleJID "11111") none "hello" ts)
      "type" = some (Value.str "text") ∧
    Fields.get (LogOutgoingMessage.fields d msgID "99999" (sampleJID "11111") none "hello" ts)
      "text" = some (Value.str "hello") ∧
    Fields.get (LogOutgoingMessage.fields d msgID "99999" (sampleJID "11111") none "hello" ts)
      "from" = some (Value.str "99999") ∧
    Fields.get (LogOutgoingMessage.fields d msgID "99999" (sampleJID "11111") none "hello" ts)
      "to" = some (Value.str "11111@s.whatsapp.net") ∧
    Fields.get (LogOutgoingMessage.fields d msgID "99999" (sampleJID "11111") none "hello" ts)
      "is_from_me" = some (Value.bool true) := by
  have hto : d.JIDString (d.ToNonAD (sampleJID "11111")) = "11111@s.whatsapp.net" := by
    rw [hnonad, hstring]
    rfl
  have htype : detectOutgoingType none "hello" = "text" := by
    simp [detectOutgoingType]
  refine ⟨?_, ?_, ?_, ?_, ?_⟩ <;>
    simp [LogOutgoingMessage.fields, Fields.get, Fields.set, hto, htype]

/-- Witness of C11 as amended: the scenario with the library renderings. -/
theorem LogOutgoingMessage_scenario_witness :
    libraryDeps.ToNonAD = types.JID.ToNonAD ∧ libraryDeps.JIDString = types.JID.String ∧
    Fields.get (LogOutgoingMessage.fields libraryDeps "3EB0" "99999" (sampleJID "11111") none
        "hello" 1704067200) "to" = some (Value.str "11111@s.whatsapp.net") :=
  ⟨rfl, rfl, (LogOutgoingMessage_scenario libraryDeps "3EB0" 1704067200 rfl rfl).2.2.2.1⟩

/-- C12 fails as stated: with the library renderings, the incoming event of
scenario 1 (sender user 12345 and chat user 67890 on `s.whatsapp.net`, no hint,
an image payload) gets a record whose `from` is "12345@s.whatsapp.net" and
whose `to` is "67890@s.whatsapp.net", not "12345" and "67890". -/
theorem LogIncomingMessage_scenario_from_keeps_server :
    Fields.get (LogIncomingMessage.fields libraryDeps (sampleEvent "" (some imageOnly)) none)
        "from" = some (Value.str "12345@s.whatsapp.net") ∧
    Fields.get (LogIncomingMessage.fields libraryDeps (sampleEvent "" (some imageOnly)) none)
        "to" = some (Value.str "67890@s.whatsapp.net") ∧
    Fields.get (LogIncomingMessage.fields libraryDeps (sampleEvent "" (some imageOnly)) none)
        "from" ≠ some (Value.str "12345") ∧
    Fields.get (LogIncomingMessage.fields libraryDeps (sampleEvent "" (some imageOnly)) none)
        "to" ≠ some (Value.str "67890") := by
  refine ⟨?_, ?_, ?_, ?_⟩
  · rfl
  · rfl
  · decide
  · decide

/-- C12 as amended: when identifiers and instants are rendered by the library
functions, the incoming event with sender user 12345 and chat user 67890 on
`s.whatsapp.net`, id "ABC123", timestamp 2024-01-01T00:00:00Z (1704067200
seconds), is-from-me false, no hint and an image payload gets, for every
client and text extraction, a record with type "image", from
"12345@s.whatsapp.net", to "67890@s.whatsapp.net", is_from_me false,
message_id "ABC123" and timestamp "2024-01-01T00:00:00Z". -/
theorem LogIncomingMessage_scenario (d : Deps) (client : Option whatsmeow.Client)
    (hnonad : d.ToNonAD = types.JID.ToNonAD) (hstring : d.JIDString = types.JID.String)
    (hformat : d.FormatRFC3339 = formatRFC3339UTC) :
    Fields.get (LogIncomingMessage.fields d (sampleEvent "" (some imageOnly)) client)
      "type" = some (Value.str "image") ∧
    Fields.get (LogIncomingMessage.fields d (sampleEvent "" (some imageOnly)) client)
      "from" = some (Value.str "12345@s.whatsapp.net") ∧
    Fields.get (LogIncomingMessage.fields d (sampleEvent "" (some imageOnly)) client)
      "to" = some (Value.str "67890@s.whatsapp.net") ∧
    Fields.get (LogIncomingMessage.fields d (sampleEvent "" (some imageOnly)) client)
      "is_from_me" = some (Value.bool false) ∧
    Fields.get (LogIncomingMessage.fields d (sampleEvent "" (some imageOnly)) client)
      "message_id" = some (Value.str "ABC123") ∧
    Fields.get (LogIncomingMessage.fields d (sampleEvent "" (some imageOnly)) client)
      "timestamp" = some (Value.str "2024-01-01T00:00:00Z") := by
  have hfrom : d.JIDString (d.ToNonAD (sampleEvent "" (some imageOnly)).Info.Sender)
      = "12345@s.whatsapp.net" := by
    rw [hnonad, hstring]
    rfl
  have hto : d.JIDString (d.ToNonAD (sampleEvent "" (some imageOnly)).Info.Chat)
      = "67890@s.whatsapp.net" := by
    rw [hnonad, hstring]
    rfl
  have hts : d.FormatRFC3339 (sampleEvent "" (some imageOnly)).Info.Timestamp
      = "2024-01-01T00:00:00Z" := by
    rw [hformat]
    rfl
  have htype : LogIncomingMessage.msgType (sampleEvent "" (some imageOnly)) = "image" := by
    rfl
  have hid : (sampleEvent "" (some imageOnly)).Info.ID = "ABC123" := rfl
  have hme : (sampleEvent "" (some imageOnly)).Info.IsFromMe = false := rfl
  refine ⟨?_, ?_, ?_, ?_, ?_, ?_⟩ <;>
    (unfold LogIncomingMessage.fields
     split_ifs <;>
       simp [Fields.get, Fields.set, hfrom, hto, hts, htype, hid, hme])

/-- Witness of C12 as amended: the scenario with the library renderings. -/
theorem LogIncomingMessage_scenario_witness :
    libraryDeps.ToNonAD = types.JID.ToNonAD ∧ libraryDeps.JIDString = types.JID.String ∧
    libraryDeps.FormatRFC3339 = formatRFC3339UTC ∧
    Fields.get (LogIncomingMessage.fields libraryDeps (sampleEvent "" (some imageOnly)) none)
      "timestamp" = some (Value.str "2024-01-01T00:00:00Z") :=
  ⟨rfl, rfl, rfl, (LogIncomingMessage_scenario libraryDeps none rfl rfl rfl).2.2.2.2.2⟩
/-! ## Shape of the records -/

/-- C13: for every call of `LogOutgoingMessage`, the keys of the assembled
record are device_id, message_id, from, to, is_from_me, type, timestamp, and
text after them exactly when the content is not empty; then `text` is the
content; `is_from_me` is true and `device_id` and `from` are the sender
string, whatever the inputs. -/
theorem LogOutgoingMessage_record_shape (d : Deps) (msgID senderJID : String)
    (recipient : types.JID) (msg : Option waE2E.Message) (content : String) (ts : Int) :
    Fields.keys (LogOutgoingMessage.fields d msgID senderJID recipient msg content ts)
      = ["device_id", "message_id", "from", "to", "is_from_me", "type", "timestamp"]
        ++ (if content = "" then [] else ["text"]) ∧
    (content ≠ "" →
      Fields.get (LogOutgoingMessage.fields d msgID senderJID recipient msg content ts) "text"
        = some (Value.str content)) ∧
    (content = "" →
      Fields.get (LogOutgoingMessage.fields d msgID senderJID recipient msg content ts) "text"
        = none) ∧
    Fields.get (LogOutgoingMessage.fields d msgID senderJID recipient msg content ts) "is_from_me"
      = some (Value.bool true) ∧
    Fields.get (LogOutgoingMessage.fields d msgID senderJID recipient msg content ts) "device_id"
      = some (Value.str senderJID) ∧
    Fields.get (LogOutgoingMessage.fields d msgID senderJID recipient msg content ts) "from"
      = some (Value.str senderJID) := by
  by_cases hc : content = ""
  · refine ⟨?_, ?_, ?_, ?_, ?_, ?_⟩ <;>
      simp [LogOutgoingMessage.fields, Fields.keys, Fields.get, Fields.set, hc]
  · refine ⟨?_, ?_, ?_, ?_, ?_, ?_⟩ <;>
      simp [LogOutgoingMessage.fields, Fields.keys, Fields.get, Fields.set, hc]

/-- Witness of C13: the record of an outgoing "hello" has the eight keys and
the record of an outgoing empty content the seven. -/
theorem LogOutgoingMessage_record_shape_witness :
    Fields.keys (LogOutgoingMessage.fields sampleDeps "3EB0" "99999" (sampleJID "11111")
        (some imageOnly) "hello" 1704067200)
      = ["device_id", "message_id", "from", "to", "is_from_me", "type", "timestamp", "text"] ∧
    Fields.keys (LogOutgoingMessage.fields sampleDeps "3EB0" "99999" (sampleJID "11111")
        (some imageOnly) "" 1704067200)
      = ["device_id", "message_id", "from", "to", "is_from_me", "type", "timestamp"] ∧
    Fields.get (LogOutgoingMessage.fields sampleDeps "3EB0" "99999" (sampleJID "11111")
        (some imageOnly) "hello" 1704067200) "text" = some (Value.str "hello") :=
  ⟨(LogOutgoingMessage_record_shape sampleDeps "3EB0" "99999" (sampleJID "11111")
      (some imageOnly) "hello" 1704067200).1,
   (LogOutgoingMessage_record_shape sampleDeps "3EB0" "99999" (sampleJID "11111")
      (some imageOnly) "" 1704067200).1,
   (LogOutgoingMessage_record_shape sampleDeps "3EB0" "99999" (sampleJID "11111")
      (some imageOnly) "hello" 1704067200).2.1 (by decide)⟩

/-- The `device_id` field of the incoming record is the resolved identifier of
lines 55-58. -/
theorem incoming_fields_device_id (d : Deps) (evt : events.Message)
    (client : Option whatsmeow.Client) :
    Fields.get (LogIncomingMessage.fields d evt client) "device_id"
      = some (Value.str (LogIncomingMessage.deviceID d client)) := by
  unfold LogIncomingMessage.fields
  split_ifs <;> simp [Fields.get, Fields.set]

/-- C14: for every incoming event, the `device_id` of the record assembled by
`LogIncomingMessage` is the empty string when the client is absent, when its
store is absent, and when the store's identity is absent; otherwise it is the
rendering of the identity with agent and device stripped.  In each case the
call from a state without logger completes and writes the record. -/
theorem LogIncomingMessage_device_id (d : Deps) (evt : events.Message)
    (client : Option whatsmeow.Client) :
    (client = none →
      Fields.get (LogIncomingMessage.fields d evt client) "device_id" = some (Value.str "")) ∧
    (∀ c, client = some c → c.Store = none →
      Fields.get (LogIncomingMessage.fields d evt client) "device_id" = some (Value.str "")) ∧
    (∀ c s, client = some c → c.Store = some s → s.ID = none →
      Fields.get (LogIncomingMessage.fields d evt client) "device_id" = some (Value.str "")) ∧
    (∀ c s id, client = some c → c.Store = some s → s.ID = some id →
      Fields.get (LogIncomingMessage.fields d evt client) "device_id"
        = some (Value.str (d.JIDString (d.ToNonAD id)))) ∧
    (∀ w : World, w.msgLoggerOnce = false →
      ∃ w1 : World, LogIncomingMessage d evt client w = some w1 ∧
        (w1.written.map (fun x => x.2.fields)).getLast?
          = some (LogIncomingMessage.fields d evt client)) := by
  refine ⟨?_, ?_, ?_, ?_, ?_⟩
  · intro h
    rw [incoming_fields_device_id, h]
    rfl
  · intro c h hs
    rw [incoming_fields_device_id, h]
    simp [LogIncomingMessage.deviceID, hs]
  · intro c s h hs hid
    rw [incoming_fields_device_id, h]
    simp [LogIncomingMessage.deviceID, hs, hid]
  · intro c s id h hs hid
    rw [incoming_fields_device_id, h]
    simp [LogIncomingMessage.deviceID, hs, hid]
  · intro w hw
    obtain ⟨l, w1, hget, _, _, _, hlevel, _⟩ := getMsgLogger_first d w hw
    have h := EmitterCall.run_of_get d (EmitterCall.incoming evt client) w w1 l hget hlevel
    refine ⟨_, h, ?_⟩
    simp [EmitterCall.fields]

/-- Witness of C14: without client the device id is empty; with a client
logged in as user 55555, device 7, it is the identifier without the device,
"55555@s.whatsapp.net" in the library rendering. -/
theorem LogIncomingMessage_device_id_witness :
    Fields.get (LogIncomingMessage.fields libraryDeps (sampleEvent "" none) none) "device_id"
      = some (Value.str "") ∧
    Fields.get (LogIncomingMessage.fields libraryDeps (sampleEvent "" none) (some sampleClient))
      "device_id" = some (Value.str "55555@s.whatsapp.net") ∧
    ∃ w1 : World, LogIncomingMessage libraryDeps (sampleEvent "" none) none World.init = some w1 :=
  ⟨(LogIncomingMessage_device_id libraryDeps (sampleEvent "" none) none).1 rfl,
   (LogIncomingMessage_device_id libraryDeps (sampleEvent "" none) (some sampleClient)).2.2.2.1
      sampleClient _ _ rfl rfl rfl,
   ((LogIncomingMessage_device_id libraryDeps (sampleEvent "" none) none).2.2.2.2
      World.init rfl).imp (fun _ h => h.1)⟩
/-! ## Initialisation of the logger -/

/-- C15: in a state where the logger is not initialised, the first call of
`getMsgLogger` returns a logger with the JSON formatter and the info level,
and no failure.  Its sink is standard output when the directory creation
fails (no file open is then attempted) and when the file open fails, and the
log file when both succeed.  Every record of later emitter calls, incoming or
outgoing, is written to that sink, one line per call in call order; the same
holds when the first call is made by the first emitter itself. -/
theorem getMsgLogger_sink_fallback (d : Deps) (w : World) (calls : List EmitterCall)
    (hfirst : w.msgLoggerOnce = false) :
    ∃ (l : Logger) (w1 : World), getMsgLogger d w = (some l, w1) ∧
      l.Formatter = Formatter.json RFC3339 ∧ l.Level = InfoLevel ∧
      (d.MkdirAll w.mkdirAllCalls (d.Dir d.LogMessagesPath) = false →
        l.Out = Sink.stdout ∧ w1.openFileCalls = w.openFileCalls) ∧
      (d.MkdirAll w.mkdirAllCalls (d.Dir d.LogMessagesPath) = true →
        d.OpenFile w.openFileCalls d.LogMessagesPath = false → l.Out = Sink.stdout) ∧
      (d.MkdirAll w.mkdirAllCalls (d.Dir d.LogMessagesPath) = true →
        d.OpenFile w.openFileCalls d.LogMessagesPath = true →
        l.Out = Sink.file d.LogMessagesPath) ∧
      (∃ w2 : World, runCalls d calls w1 = some w2 ∧ w2.msgLogger = some l ∧
        w2.written = w.written ++ calls.map (fun c =>
          (l.Out, { level := InfoLevel, message := "message", fields := c.fields d }))) ∧
      (∃ w3 : World, runCalls d calls w = some w3 ∧
        w3.written = w.written ++ calls.map (fun c =>
          (l.Out, { level := InfoLevel, message := "message", fields := c.fields d }))) := by
  obtain ⟨l, w1, hget, hlog, hdone, hfmt, hlevel, hout, hwr, _, hopen⟩ :=
    getMsgLogger_first d w hfirst
  refine ⟨l, w1, hget, hfmt, hlevel, ?_, ?_, ?_, ?_, ?_⟩
  · intro hm
    rw [hout, hopen]
    simp [hm]
  · intro hm ho
    rw [hout]
    simp [hm, ho]
  · intro hm ho
    rw [hout]
    simp [hm, ho]
  · refine ⟨_, runCalls_ready d calls w1 l hdone hlog hlevel, hlog, ?_⟩
    simp [hwr]
  · cases calls with
    | nil => exact ⟨w, by simp [runCalls], by simp⟩
    | cons c rest =>
      obtain ⟨wc, hwc, hwcdone, hwclog, hwcwr⟩ : ∃ wc : World, c.run d w = some wc ∧
          wc.msgLoggerOnce = true ∧ wc.msgLogger = some l ∧
          wc.written = w.written ++
            [(l.Out, { level := InfoLevel, message := "message", fields := c.fields d })] :=
        ⟨_, EmitterCall.run_of_get d c w w1 l hget hlevel, hdone, hlog, by simp [hwr]⟩
      have hrest := runCalls_ready d rest wc l hwcdone hwclog hlevel
      have hstep : runCalls d (c :: rest) w = runCalls d rest wc := by
        rw [runCalls, hwc]
      exact ⟨_, hstep.trans hrest, by simp [hwcwr]⟩

/-- Witness of C15: from the initial state, when the directory cannot be
created, an incoming and an outgoing record both go to standard output and no
file open is attempted. -/
theorem getMsgLogger_sink_fallback_witness :
    ∃ w3 : World,
      runCalls mkdirFailsDeps
        [EmitterCall.incoming (sampleEvent "" (some imageOnly)) none,
         EmitterCall.outgoing "3EB0" "99999" (sampleJID "11111") none "hello" 1704067200]
        World.init = some w3 ∧
      w3.written.map (fun x => x.1) = [Sink.stdout, Sink.stdout] ∧ w3.openFileCalls = 0 := by
  obtain ⟨l, w1, _, _, _, hm, _, _, _, w3, hrun, hwr⟩ :=
    getMsgLogger_sink_fallback mkdirFailsDeps World.init
      [EmitterCall.incoming (sampleEvent "" (some imageOnly)) none,
       EmitterCall.outgoing "3EB0" "99999" (sampleJID "11111") none "hello" 1704067200] rfl
  have hout : l.Out = Sink.stdout := (hm rfl).1
  refine ⟨w3, hrun, ?_, ?_⟩
  · rw [hwr, hout]
    rfl
  · have h : some w3 = runCalls mkdirFailsDeps
        [EmitterCall.incoming (sampleEvent "" (some imageOnly)) none,
         EmitterCall.outgoing "3EB0" "99999" (sampleJID "11111") none "hello" 1704067200]
        World.init := hrun.symm
    have h2 : (runCalls mkdirFailsDeps
        [EmitterCall.incoming (sampleEvent "" (some imageOnly)) none,
         EmitterCall.outgoing "3EB0" "99999" (sampleJID "11111") none "hello" 1704067200]
        World.init).map (fun x => x.openFileCalls) = some 0 := by rfl
    rw [← h] at h2
    simpa using h2

/-- C16 fails as stated: when the directory creation fails, three calls of
`getMsgLogger` from the initial state attempt one directory creation and no
file open at all. -/
theorem getMsgLogger_no_open_after_failed_mkdir :
    (getMsgLoggerTimes mkdirFailsDeps 3 World.init).2.mkdirAllCalls = 1 ∧
    (getMsgLoggerTimes mkdirFailsDeps 3 World.init).2.openFileCalls = 0 ∧
    (getMsgLoggerTimes mkdirFailsDeps 3 World.init).2.openFileCalls ≠ 1 := by
  decide

/-- After the first call every further call returns the same pointer and
leaves the state as it is. -/
theorem getMsgLoggerTimes_done (d : Deps) (n : Nat) (w : World)
    (hdone : w.msgLoggerOnce = true) :
    getMsgLoggerTimes d n w = (List.replicate n w.msgLogger, w) := by
  induction n with
  | zero => rfl
  | succ k ih =>
    rw [getMsgLoggerTimes, getMsgLogger_done d w hdone]
    simp only []
    rw [ih]
    rfl

/-- C16 as amended: for every N ≥ 1 and every outcome of the file-system
calls, N calls of `getMsgLogger` from a state where the logger is not
initialised attempt exactly one directory creation, and exactly one file open
when the directory creation succeeds and none when it fails; all N calls
return the same logger, which has the JSON formatter and the info level and is
the stored one; and once the done flag is set a call changes nothing. -/
theorem getMsgLogger_idempotent (d : Deps) (n : Nat) (w : World)
    (hn : 1 ≤ n) (hfirst : w.msgLoggerOnce = false) :
    ∃ l : Logger,
      (getMsgLoggerTimes d n w).1 = List.replicate n (some l) ∧
      l.Formatter = Formatter.json RFC3339 ∧ l.Level = InfoLevel ∧
      (getMsgLoggerTimes d n w).2.msgLogger = some l ∧
      (getMsgLoggerTimes d n w).2.msgLoggerOnce = true ∧
      (getMsgLoggerTimes d n w).2.mkdirAllCalls = w.mkdirAllCalls + 1 ∧
      (getMsgLoggerTimes d n w).2.openFileCalls = w.openFileCalls +
        (if d.MkdirAll w.mkdirAllCalls (d.Dir d.LogMessagesPath) = false then 0 else 1) ∧
      (∀ w0 : World, w0.msgLoggerOnce = true → getMsgLogger d w0 = (w0.msgLogger, w0)) := by
  obtain ⟨l, w1, hget, hlog, hdone, hfmt, hlevel, _, _, hmk, hopen⟩ :=
    getMsgLogger_first d w hfirst
  obtain ⟨k, rfl⟩ : ∃ k, n = k + 1 := ⟨n - 1, by omega⟩
  have hrun : getMsgLoggerTimes d (k + 1) w = (List.replicate (k + 1) (some l), w1) := by
    rw [getMsgLoggerTimes, hget]
    simp only []
    rw [getMsgLoggerTimes_done d k w1 hdone, hlog]
    rfl
  refine ⟨l, ?_, hfmt, hlevel, ?_, ?_, ?_, ?_, fun w0 h0 => getMsgLogger_done d w0 h0⟩
  · rw [hrun]
  · rw [hrun]; exact hlog
  · rw [hrun]; exact hdone
  · rw [hrun]; exact hmk
  · rw [hrun]; exact hopen

/-- Witness of C16 as amended: three calls from the initial state with a
working file system return the same file logger three times after one
directory creation and one file open. -/
theorem getMsgLogger_idempotent_witness :
    (1 ≤ 3) ∧ World.init.msgLoggerOnce = false ∧
    ∃ l : Logger, (getMsgLoggerTimes sampleDeps 3 World.init).1 = [some l, some l, some l] ∧
      (getMsgLoggerTimes sampleDeps 3 World.init).2.mkdirAllCalls = 1 ∧
      (getMsgLoggerTimes sampleDeps 3 World.init).2.openFileCalls = 1 :=
  ⟨by decide, rfl,
   (getMsgLogger_idempotent sampleDeps 3 World.init (by decide) rfl).imp
     (fun _ h => ⟨h.1, h.2.2.2.2.2.1, h.2.2.2.2.2.2.1⟩)⟩
/-! ## The two classifiers compared -/

/-- On a present payload the incoming classifier is the chain of tests of
lines 103-130 on the fields. -/
theorem detectIncomingType_some (m : waE2E.Message) :
    detectIncomingType (some m) =
      if m.ImageMessage ≠ none then "image"
      else if m.VideoMessage ≠ none then "video"
      else if m.AudioMessage ≠ none then "audio"
      else if m.DocumentMessage ≠ none then "document"
      else if m.StickerMessage ≠ none then "sticker"
      else if m.LocationMessage ≠ none then "location"
      else if m.ContactMessage ≠ none then "contact"
      else if m.ReactionMessage ≠ none then "reaction"
      else if m.PollCreationMessage ≠ none then "poll"
      else "text" := by
  simp only [detectIncomingType, waE2E.GetImageMessage, waE2E.GetVideoMessage,
    waE2E.GetAudioMessage, waE2E.GetDocumentMessage, waE2E.GetStickerMessage,
    waE2E.GetLocationMessage, waE2E.GetContactMessage, waE2E.GetReactionMessage,
    waE2E.GetPollCreationMessage, Option.isSome_iff_ne_none, Option.isNone_some,
    Bool.false_eq_true, if_false]

/-- On a present payload the outgoing classifier is the chain of tests of
lines 140-164 on the fields, whatever the content. -/
theorem detectOutgoingType_some (m : waE2E.Message) (content : String) :
    detectOutgoingType (some m) content =
      if m.ImageMessage ≠ none then "image"
      else if m.VideoMessage ≠ none then "video"
      else if m.AudioMessage ≠ none then "audio"
      else if m.DocumentMessage ≠ none then "document"
      else if m.StickerMessage ≠ none then "sticker"
      else if m.LocationMessage ≠ none then "location"
      else if m.ContactMessage ≠ none then "contact"
      else if m.PollCreationMessage ≠ none then "poll"
      else "text" := by
  simp only [detectOutgoingType, waE2E.GetImageMessage, waE2E.GetVideoMessage,
    waE2E.GetAudioMessage, waE2E.GetDocumentMessage, waE2E.GetStickerMessage,
    waE2E.GetLocationMessage, waE2E.GetContactMessage,
    waE2E.GetPollCreationMessage, Option.isSome_iff_ne_none, Option.isNone_some,
    Bool.false_eq_true, if_false]

/-- C17: for every present payload `m` and content `c`: when the incoming
label is not "reaction" the outgoing label equals it; when the incoming label
is "reaction" the outgoing label is "poll" if `m` carries a poll creation and
"text" otherwise. -/
theorem detect_differ_only_on_reaction (m : waE2E.Message) (c : String) :
    (detectIncomingType (some m) ≠ "reaction" →
      detectOutgoingType (some m) c = detectIncomingType (some m)) ∧
    (detectIncomingType (some m) = "reaction" → m.PollCreationMessage ≠ none →
      detectOutgoingType (some m) c = "poll") ∧
    (detectIncomingType (some m) = "reaction" → m.PollCreationMessage = none →
      detectOutgoingType (some m) c = "text") := by
  rw [detectIncomingType_some, detectOutgoingType_some]
  by_cases h1 : m.ImageMessage = none
  swap
  · simp [h1]
  by_cases h2 : m.VideoMessage = none
  swap
  · simp [h1, h2]
  by_cases h3 : m.AudioMessage = none
  swap
  · simp [h1, h2, h3]
  by_cases h4 : m.DocumentMessage = none
  swap
  · simp [h1, h2, h3, h4]
  by_cases h5 : m.StickerMessage = none
  swap
  · simp [h1, h2, h3, h4, h5]
  by_cases h6 : m.LocationMessage = none
  swap
  · simp [h1, h2, h3, h4, h5, h6]
  by_cases h7 : m.ContactMessage = none
  swap
  · simp [h1, h2, h3, h4, h5, h6, h7]
  by_cases h8 : m.ReactionMessage = none
  · by_cases h9 : m.PollCreationMessage = none
    · simp [h1, h2, h3, h4, h5, h6, h7, h8, h9]
    · simp [h1, h2, h3, h4, h5, h6, h7, h8, h9]
  · by_cases h9 : m.PollCreationMessage = none
    · simp [h1, h2, h3, h4, h5, h6, h7, h8, h9]
    · simp [h1, h2, h3, h4, h5, h6, h7, h8, h9]

/-- Witness of C17: an image payload gets "image" from both classifiers; a
reaction gets "reaction" incoming and "text" outgoing, and "poll" outgoing
when a poll creation is present too. -/
theorem detect_differ_only_on_reaction_witness :
    detectOutgoingType (some imageOnly) "" = detectIncomingType (some imageOnly) ∧
    detectIncomingType (some reactionOnly) = "reaction" ∧
    detectOutgoingType (some reactionOnly) "hello" = "text" ∧
    detectIncomingType (some reactionAndPoll) = "reaction" ∧
    detectOutgoingType (some reactionAndPoll) "hello" = "poll" :=
  ⟨(detect_differ_only_on_reaction imageOnly "").1 (by decide),
   by decide,
   (detect_differ_only_on_reaction reactionOnly "hello").2.2 (by decide) rfl,
   by decide,
   (detect_differ_only_on_reaction reactionAndPoll "hello").2.1 (by decide) (by decide)⟩

/-- C18: the incoming classifier returns "unknown" exactly on the absent
payload, and the outgoing classifier returns "unknown" exactly on the absent
payload with empty content; no present payload is labelled "unknown". -/
theorem detect_unknown_iff (msg : Option waE2E.Message) (c : String) :
    (detectIncomingType msg = "unknown" ↔ msg = none) ∧
    (detectOutgoingType msg c = "unknown" ↔ msg = none ∧ c = "") ∧
    (∀ m : waE2E.Message, detectIncomingType (some m) ≠ "unknown" ∧
      detectOutgoingType (some m) c ≠ "unknown") := by
  have hin : ∀ m : waE2E.Message, detectIncomingType (some m) ≠ "unknown" := by
    intro m
    rw [detectIncomingType_some]
    iterate 9 refine ite_of_both (fun s => s ≠ "unknown") _ _ _ (by decide) ?_
    decide
  have hout : ∀ m : waE2E.Message, detectOutgoingType (some m) c ≠ "unknown" := by
    intro m
    rw [detectOutgoingType_some]
    iterate 8 refine ite_of_both (fun s => s ≠ "unknown") _ _ _ (by decide) ?_
    decide
  refine ⟨?_, ?_, fun m => ⟨hin m, hout m⟩⟩
  · cases msg with
    | none => simp [detectIncomingType]
    | some m => simp [hin m]
  · cases msg with
    | none =>
      by_cases hc : c = ""
      · simp [detectOutgoingType, hc]
      · simp [detectOutgoingType, hc]
    | some m => simp [hout m]

/-- Witness of C18: the absent payload, with empty and with non-empty
content, and a present empty payload. -/
theorem detect_unknown_iff_witness :
    detectIncomingType none = "unknown" ∧ detectOutgoingType none "" = "unknown" ∧
    detectOutgoingType none "hello" ≠ "unknown" ∧
    detectIncomingType (some waE2E.Message.empty) ≠ "unknown" ∧
    detectOutgoingType (some waE2E.Message.empty) "" ≠ "unknown" :=
  ⟨(detect_unknown_iff none "").1.2 rfl,
   (detect_unknown_iff none "").2.1.2 ⟨rfl, rfl⟩,
   fun h => absurd ((detect_unknown_iff none "hello").2.1.1 h).2 (by decide),
   ((detect_unknown_iff none "").2.2 waE2E.Message.empty).1,
   ((detect_unknown_iff none "").2.2 waE2E.Message.empty).2⟩

/-- C19: for a present payload the outgoing label is the same for all content
strings; on the absent payload the content decides between "text" and
"unknown". -/
theorem detectOutgoingType_content_independent (m : waE2E.Message) (c1 c2 : String) :
    detectOutgoingType (some m) c1 = detectOutgoingType (some m) c2 ∧
    detectOutgoingType none "" ≠ detectOutgoingType none "hello" := by
  constructor
  · rw [detectOutgoingType_some, detectOutgoingType_some]
  · decide

end MessageLogger
